import Mathlib

/-!
Verification development for the Jarvis personal-assistant repository.

The repository wires an LLM agent to Google-service tools (Calendar, Gmail,
Tasks, Keep) behind a local REPL (`agent.py`) and a Twilio webhook
(`server.py`).  Each tool module carries a `SCOPES` constant and a
`get_credentials` resolver that loads a per-alias OAuth token file, refreshes
it when expired-but-refreshable, persists the refreshed record, and raises
typed errors otherwise.  Each tool adapter formats remote results into
line-oriented text.

This file gives a shallow embedding of those pieces.  Python exceptions are
values of `Exn`; the filesystem credential directory is an association list
`Store`; the remote authorization server and the remote REST APIs are oracles
carried in explicit "world" structures; adapters return `Except Exn String`
(an `Exn` result means the Python function lets the exception escape).
-/

/-! ## String infrastructure -/

/-- Appending strings concatenates their character data. -/
theorem str_data_append (s t : String) : (s ++ t).data = s.data ++ t.data := by
  cases s; cases t; rfl

/-- The string `sub` occurs contiguously inside `s`. -/
def ContainsSubstr (s sub : String) : Prop :=
  ∃ p q : List Char, s.data = p ++ (sub.data ++ q)

/-! ## Scope sets

The `SCOPES` constants, copied verbatim from each module. -/

namespace CalendarTools

/-- `SCOPES` in `calendar_tools.py`. -/
def SCOPES : List String := [
  "https://www.googleapis.com/auth/calendar",
  "https://www.googleapis.com/auth/gmail.readonly",
  "https://www.googleapis.com/auth/gmail.compose",
  "https://www.googleapis.com/auth/tasks"
]

end CalendarTools

namespace GmailTools

/-- `SCOPES` in `gmail_tools.py`. -/
def SCOPES : List String := [
  "https://www.googleapis.com/auth/calendar",
  "https://www.googleapis.com/auth/gmail.readonly",
  "https://www.googleapis.com/auth/gmail.compose",
  "https://www.googleapis.com/auth/gmail.modify",
  "https://www.googleapis.com/auth/tasks"
]

end GmailTools

namespace TasksTools

/-- `SCOPES` in `tasks_tools.py`. -/
def SCOPES : List String := [
  "https://www.googleapis.com/auth/calendar",
  "https://www.googleapis.com/auth/gmail.readonly",
  "https://www.googleapis.com/auth/gmail.compose",
  "https://www.googleapis.com/auth/gmail.modify",
  "https://www.googleapis.com/auth/tasks"
]

end TasksTools

namespace KeepTools

/-- `SCOPES` in `keep_tools.py`. -/
def SCOPES : List String := [
  "https://www.googleapis.com/auth/calendar",
  "https://www.googleapis.com/auth/gmail.readonly",
  "https://www.googleapis.com/auth/gmail.compose",
  "https://www.googleapis.com/auth/tasks",
  "https://www.googleapis.com/auth/keep.readonly",
  "https://www.googleapis.com/auth/keep"
]

end KeepTools

namespace AddAccount

/-- `SCOPES` in `add_account.py` (the enrollment script). -/
def SCOPES : List String := [
  "https://www.googleapis.com/auth/calendar",
  "https://www.googleapis.com/auth/gmail.readonly",
  "https://www.googleapis.com/auth/gmail.compose",
  "https://www.googleapis.com/auth/tasks"
]

end AddAccount

/-- Two scope lists are equal as sets of permission strings. -/
def scopeSetEq (a b : List String) : Bool :=
  a.all (fun x => b.contains x) && b.all (fun x => a.contains x)

/-! ## Credential data model -/

/-- Python exception values that flow through the tool modules. -/
inductive Exn where
  | fileNotFound (msg : String)
  | connectionError (msg : String)
  | valueError (msg : String)
  | otherError (msg : String)
deriving Repr, DecidableEq

/-- `str(e)`: the message carried by an exception. -/
def Exn.text : Exn → String
  | .fileNotFound m => m
  | .connectionError m => m
  | .valueError m => m
  | .otherError m => m

/-- A persisted OAuth credential record (one `<alias>.json` token file, as
deserialized by `Credentials.from_authorized_user_file`):
access token, optional refresh token, expiry timestamp, granted scopes. -/
structure Cred where
  token : Option String
  refresh_token : Option String
  expiry : Nat
  scopes : List String
deriving Repr, DecidableEq

/-- The credential directory: alias-keyed token files. -/
abbrev Store := List (String × Cred)

/-- Look up the token file for an alias (`os.path.exists` + load). -/
def Store.find : Store → String → Option Cred
  | [], _ => none
  | (k, c) :: rest, a => if k = a then some c else Store.find rest a

/-- Overwrite (or create) the token file for an alias
(`open(token_path, "w").write(creds.to_json())`). -/
def Store.insertReplace : Store → String → Cred → Store
  | [], a, c => [(a, c)]
  | (k, c0) :: rest, a, c =>
      if k = a then (a, c) :: rest else (k, c0) :: Store.insertReplace rest a c

/-- `creds.expired` of the google-auth library: the expiry timestamp has
passed. -/
def Cred.expired (now : Nat) (c : Cred) : Bool := decide (c.expiry ≤ now)

/-- `creds.valid` of the google-auth library: a token is present and not
expired. -/
def Cred.valid (now : Nat) (c : Cred) : Bool := c.token.isSome && !(c.expired now)

/-- The environment a `get_credentials` call runs in: the credential
directory, the current time, and the authorization server's answer to a
refresh exchange (`.ok (newToken, expiresIn)` on success, `.error msg` when
the exchange is rejected / raises). -/
structure AuthWorld where
  store : Store
  now : Nat
  refreshResponse : Except String (String × Nat)

/-- Result of one `get_credentials` call: the returned credential or escaped
exception, the credential directory afterwards, and how many refresh
exchanges were performed. -/
structure ResolveOut where
  result : Except Exn Cred
  store : Store
  refreshes : Nat
deriving Repr

namespace CalendarTools

/-- The `FileNotFoundError` message raised by
`calendar_tools.get_credentials` (token path is
`os.path.join('credentials', account_alias + ".json")`). -/
def notFoundMsg (account_alias : String) : String :=
  "Credentials file not found for account alias '" ++ account_alias ++
    "' at credentials/" ++ account_alias ++ ".json. Please run add_account.py."

/-- The `ConnectionError` message raised by the blanket `except Exception`
re-raise in `calendar_tools.get_credentials`.  Note it drops the inner
exception's text. -/
def wrapMsg (account_alias : String) : String :=
  "Could not load or refresh credentials for '" ++ account_alias ++ "'."

/-- `calendar_tools.get_credentials`: load the alias's token file
(`FileNotFoundError` when absent, raised before the `try` block); return it
when valid; when expired with a refresh token, perform one refresh exchange
and persist the refreshed record to the same path; otherwise raise
`ConnectionError`.  Every exception raised inside the `try` block is caught
by `except Exception` and re-raised as `ConnectionError(wrapMsg)`. -/
def get_credentials (w : AuthWorld) (account_alias : String) : ResolveOut :=
  match w.store.find account_alias with
  | none => ⟨.error (.fileNotFound (notFoundMsg account_alias)), w.store, 0⟩
  | some creds =>
    if creds.valid w.now then ⟨.ok creds, w.store, 0⟩
    else if creds.expired w.now && creds.refresh_token.isSome then
      match w.refreshResponse with
      | .ok (newToken, expiresIn) =>
        let refreshed : Cred :=
          { creds with token := some newToken, expiry := w.now + expiresIn }
        ⟨.ok refreshed, w.store.insertReplace account_alias refreshed, 1⟩
      | .error _ =>
        -- `creds.refresh(Request())` raised before the file write; the
        -- blanket handler re-raises with the wrap message.
        ⟨.error (.connectionError (wrapMsg account_alias)), w.store, 1⟩
    else
      -- the inner `ConnectionError("Credentials ... cannot be refreshed ...")`
      -- is caught by `except Exception` and replaced by the wrap message.
      ⟨.error (.connectionError (wrapMsg account_alias)), w.store, 0⟩

end CalendarTools

namespace TasksTools

/-- `tasks_tools.get_credentials` is verbatim identical to
`calendar_tools.get_credentials` (same directory, same messages). -/
def get_credentials : AuthWorld → String → ResolveOut :=
  CalendarTools.get_credentials

end TasksTools

namespace GmailTools

/-- The environment of `gmail_tools.get_credentials`: it additionally reads
the `RENDER` environment variable and checks for the main
`credentials.json`. -/
structure GmailAuthWorld where
  store : Store
  now : Nat
  refreshResponse : Except String (String × Nat)
  isOnRender : Bool
  credentialsJsonExists : Bool

/-- Token path chosen by `gmail_tools.get_credentials`. -/
def tokenPath (isOnRender : Bool) (account_alias : String) : String :=
  if isOnRender then account_alias ++ ".json"
  else "credentials/" ++ account_alias ++ ".json"

/-- The `FileNotFoundError` message for a missing alias token file in
`gmail_tools.get_credentials`. -/
def notFoundMsg (isOnRender : Bool) (account_alias : String) : String :=
  "Credentials file not found for alias '" ++ account_alias ++
    "' at expected path: " ++ tokenPath isOnRender account_alias ++
    ". Ensure the secret file '" ++ account_alias ++
    ".json' exists on Render or run add_account.py locally."

/-- The inner `ConnectionError` message for an unrefreshable credential in
`gmail_tools.get_credentials`. -/
def invalidMsg (account_alias : String) : String :=
  "Credentials for '" ++ account_alias ++
    "' are invalid/expired and cannot be refreshed. Please re-run add_account.py for this alias locally and re-upload the token."

/-- The re-raised `ConnectionError` of the blanket handler in
`gmail_tools.get_credentials`; unlike the calendar variant it appends the
inner exception's text. -/
def wrapMsg (account_alias inner : String) : String :=
  "Could not load or refresh credentials for '" ++ account_alias ++
    "'. Details: " ++ inner

/-- `gmail_tools.get_credentials`: same lifecycle as the calendar resolver,
with a Render-aware token path, a check for the main `credentials.json` when
the alias file is absent, and a blanket re-raise that keeps the inner
exception text. -/
def get_credentials (w : GmailAuthWorld) (account_alias : String) : ResolveOut :=
  match w.store.find account_alias with
  | none =>
    if !w.credentialsJsonExists then
      ⟨.error (.fileNotFound "Main credentials.json not found. Cannot proceed."), w.store, 0⟩
    else
      ⟨.error (.fileNotFound (notFoundMsg w.isOnRender account_alias)), w.store, 0⟩
  | some creds =>
    if creds.valid w.now then ⟨.ok creds, w.store, 0⟩
    else if creds.expired w.now && creds.refresh_token.isSome then
      match w.refreshResponse with
      | .ok (newToken, expiresIn) =>
        let refreshed : Cred :=
          { creds with token := some newToken, expiry := w.now + expiresIn }
        ⟨.ok refreshed, w.store.insertReplace account_alias refreshed, 1⟩
      | .error e =>
        ⟨.error (.connectionError (wrapMsg account_alias e)), w.store, 1⟩
    else
      ⟨.error (.connectionError (wrapMsg account_alias (invalidMsg account_alias))), w.store, 0⟩

end GmailTools

/-! ## Tool adapters

Each adapter returns `Except Exn String`: `.ok` is the text returned to the
agent, `.error` means the Python function lets an exception escape.  The
output also records the credential directory afterwards and how many remote
API operations were issued. -/

/-- Outcome of one tool-adapter invocation. -/
structure ToolOut where
  result : Except Exn String
  store : Store
  remoteCalls : Nat

namespace CalendarTools

/-- One event as returned by the Calendar `events.list` call, already
projected to the fields the adapter renders: `summary`,
`start.dateTime`/`start.date`, and `id`. -/
structure CalEvent where
  summary : String
  startStr : String
  id : String
deriving Repr, DecidableEq

/-- The per-event line of `search_calendar_events`
(`f"- Summary: {..} | Starts: {..} | ID: {event['id']}"`). -/
def eventLine (summary startStr id : String) : String :=
  "- Summary: " ++ summary ++ " | Starts: " ++ startStr ++ " | ID: " ++ id

/-- Arguments of `search_calendar_events`. -/
structure SearchEventsArgs where
  account_alias : String
  start_time : String
  end_time : String
  query : Option String
  max_results : Nat

/-- World of a `search_calendar_events` call: the credential environment and
the outcome of everything inside the `try` block after credential
resolution (datetime parsing plus the remote `events.list` call), as an
oracle: `.ok events` for a successful remote listing, `.error e` when that
code raises. -/
structure CalendarWorld where
  auth : AuthWorld
  remote : Except Exn (List CalEvent)

/-- The generic `except Exception` message of `search_calendar_events`. -/
def searchErrMsg (account_alias detail : String) : String :=
  "An error occurred searching calendar for '" ++ account_alias ++ "': " ++ detail

/-- `calendar_tools.search_calendar_events`: resolve credentials, issue the
remote listing, render one line per event.  `FileNotFoundError` and
`ConnectionError` are returned as their own text; any other exception is
returned as the generic message.  No remote call happens when credential
resolution fails. -/
def search_calendar_events (w : CalendarWorld) (a : SearchEventsArgs) : ToolOut :=
  let r := get_credentials w.auth a.account_alias
  match r.result with
  | .error e =>
    match e with
    | .fileNotFound m => ⟨.ok m, r.store, 0⟩
    | .connectionError m => ⟨.ok m, r.store, 0⟩
    | e => ⟨.ok (searchErrMsg a.account_alias e.text), r.store, 0⟩
  | .ok _ =>
    match w.remote with
    | .error e => ⟨.ok (searchErrMsg a.account_alias e.text), r.store, 1⟩
    | .ok events =>
      if events.isEmpty then
        ⟨.ok "No events found matching your criteria.", r.store, 1⟩
      else
        ⟨.ok (String.intercalate "\n"
          (events.map (fun ev => eventLine ev.summary ev.startStr ev.id))), r.store, 1⟩

end CalendarTools

namespace GmailTools

/-- One message of a `search_gmail` result, already projected through the
per-message metadata fetch: the extracted From / Subject headers (with their
`'Unknown Sender'` / `'No Subject'` defaults applied), the snippet, and the
message id. -/
structure GmailMsg where
  sender : String
  subject : String
  snippet : String
  id : String
deriving Repr, DecidableEq

/-- The per-message block of `search_gmail`
(`f"- From: {..}\n  Subject: {..}\n  Snippet: {..}\n  ID: {msg['id']}\n---"`). -/
def gmailEntry (sender subject snippet id : String) : String :=
  "- From: " ++ sender ++ "\n  Subject: " ++ subject ++ "\n  Snippet: " ++
    snippet ++ "\n  ID: " ++ id ++ "\n---"

/-- World of a `search_gmail` call: credential environment plus the outcome
of the remote `messages.list` / per-message `messages.get` sequence. -/
structure GmailWorld where
  auth : GmailAuthWorld
  remote : Except Exn (List GmailMsg)

/-- The generic `except Exception` message of `search_gmail`. -/
def searchErrMsg (account_alias detail : String) : String :=
  "An error occurred searching Gmail for '" ++ account_alias ++ "': " ++ detail

/-- `gmail_tools.search_gmail`: resolve credentials, list matching messages,
fetch each message's metadata, render one block per message.  All exceptions
are caught at the boundary and returned as text. -/
def search_gmail (w : GmailWorld) (account_alias query : String)
    (max_results : Nat) : ToolOut :=
  let r := get_credentials w.auth account_alias
  match r.result with
  | .error e =>
    match e with
    | .fileNotFound m => ⟨.ok m, r.store, 0⟩
    | .connectionError m => ⟨.ok m, r.store, 0⟩
    | e => ⟨.ok (searchErrMsg account_alias e.text), r.store, 0⟩
  | .ok _ =>
    match w.remote with
    | .error e => ⟨.ok (searchErrMsg account_alias e.text), r.store, 1⟩
    | .ok msgs =>
      if msgs.isEmpty then
        ⟨.ok "No emails found matching your query.", r.store, 1⟩
      else
        -- one `messages.list` call plus one `messages.get` per message
        ⟨.ok (String.intercalate "\n"
          (msgs.map (fun m => gmailEntry m.sender m.subject m.snippet m.id))),
          r.store, 1 + msgs.length⟩

end GmailTools

namespace TasksTools

/-- One task list as returned by `tasklists.list`. -/
structure TaskList where
  title : String
  id : String
deriving Repr, DecidableEq

/-- The per-task-list line of `list_task_lists`
(`f"- Title: {item['title']} (ID: {item['id']})"`). -/
def taskListLine (title id : String) : String :=
  "- Title: " ++ title ++ " (ID: " ++ id ++ ")"

/-- The per-task line of `get_tasks`
(`f"- {status} {task['title']} (ID: {task['id']})"`). -/
def taskLine (statusBox title id : String) : String :=
  "- " ++ statusBox ++ " " ++ title ++ " (ID: " ++ id ++ ")"

/-- The per-subtask line of `get_tasks`
(`f"  - {sub_status} {subtask['title']} (ID: {subtask['id']})"`). -/
def subtaskLine (statusBox title id : String) : String :=
  "  - " ++ statusBox ++ " " ++ title ++ " (ID: " ++ id ++ ")"

/-- World of a `list_task_lists` call. -/
structure TasksWorld where
  auth : AuthWorld
  remote : Except Exn (List TaskList)

/-- The generic `except Exception` message of `list_task_lists`. -/
def listErrMsg (account_alias detail : String) : String :=
  "An error occurred listing task lists for '" ++ account_alias ++ "': " ++ detail

/-- `tasks_tools.list_task_lists`: resolve credentials, list the account's
task lists, render one line per list.  All exceptions are caught at the
boundary and returned as text. -/
def list_task_lists (w : TasksWorld) (account_alias : String) : ToolOut :=
  let r := get_credentials w.auth account_alias
  match r.result with
  | .error e =>
    match e with
    | .fileNotFound m => ⟨.ok m, r.store, 0⟩
    | .connectionError m => ⟨.ok m, r.store, 0⟩
    | e => ⟨.ok (listErrMsg account_alias e.text), r.store, 0⟩
  | .ok _ =>
    match w.remote with
    | .error e => ⟨.ok (listErrMsg account_alias e.text), r.store, 1⟩
    | .ok items =>
      if items.isEmpty then
        ⟨.ok ("No task lists found for account '" ++ account_alias ++ "'."), r.store, 1⟩
      else
        ⟨.ok (String.intercalate "\n"
          (items.map (fun item => taskListLine item.title item.id))), r.store, 1⟩

end TasksTools

namespace KeepTools

/-- The per-note line of `keep_tools.list_notes`
(`f"- Title: {note.get('title', 'Untitled Note')}, ID: {note.get('name')}"`;
the note `name` is its unique id). -/
def noteLine (title name : String) : String :=
  "- Title: " ++ title ++ ", ID: " ++ name

end KeepTools

namespace GKeepTools

/-- One note of the gkeepapi session. -/
structure GKeepNote where
  title : String
  id : String
deriving Repr, DecidableEq

/-- The per-note line of `gkeep_tools.list_notes`
(`f"- Title: {note.title or 'Untitled Note'} (ID: {note.id})"`). -/
def noteLine (title id : String) : String :=
  "- Title: " ++ (if title.isEmpty then "Untitled Note" else title) ++
    " (ID: " ++ id ++ ")"

/-- Environment of the gkeepapi integration: the `GKEEP_EMAIL` /
`GKEEP_MASTER_KEY` environment variables, whether the module-level
`_keep_instance` global is already populated, whether `keep.authenticate`
succeeds, and the notes visible after `sync`. -/
structure GKeepWorld where
  gkeepEmail : Option String
  gkeepMasterKey : Option String
  cachedInstance : Bool
  authOk : Bool
  notes : List GKeepNote

/-- Python truthiness of an optional string (`None` and `""` are falsy). -/
def truthyOptStr : Option String → Bool
  | none => false
  | some s => !s.isEmpty

/-- The `ValueError` message of `gkeep_tools.get_keep_instance`. -/
def missingEnvMsg : String :=
  "GKEEP_EMAIL and GKEEP_MASTER_KEY environment variables must be set."

/-- `gkeep_tools.get_keep_instance`: reuse the cached session when present,
else read the environment variables (raising `ValueError` when absent) and
authenticate (raising `ConnectionError` on login failure).  Nothing catches
these exceptions inside the module. -/
def get_keep_instance (w : GKeepWorld) : Except Exn Unit :=
  if w.cachedInstance then .ok ()
  else if !(truthyOptStr w.gkeepEmail) || !(truthyOptStr w.gkeepMasterKey) then
    .error (.valueError missingEnvMsg)
  else if !w.authOk then
    .error (.connectionError "Failed to authenticate with Google Keep. Check your Master Key. Error: ")
  else .ok ()

/-- `gkeep_tools.list_notes`: calls `get_keep_instance` with no `try` block
around it, so any exception it raises escapes the adapter. -/
def list_notes (w : GKeepWorld) : Except Exn String :=
  match get_keep_instance w with
  | .error e => .error e
  | .ok _ =>
    if w.notes.isEmpty then .ok "No notes found in Google Keep."
    else .ok (String.intercalate "\n"
      (w.notes.map (fun n => noteLine n.title n.id)))

end GKeepTools

/-! ## Update request bodies (`update_event`, `update_task`) -/

/-- Python truthiness of an optional string argument (`if new_summary:`
skips both `None` and the empty string). -/
def truthyArg : Option String → Bool
  | none => false
  | some s => !s.isEmpty

namespace CalendarTools

/-- A fetched Calendar event resource, restricted to the fields
`update_event` reads or writes plus representative untouched fields. -/
structure EventResource where
  id : String
  summary : String
  start_dateTime : String
  end_dateTime : String
  location : Option String
  description : Option String
deriving Repr, DecidableEq

/-- The request body built by `update_event`: the fetched event with
`summary`, `start.dateTime`, `end.dateTime` overwritten only when the
corresponding argument is truthy.  `isoNorm` stands for
`datetime.fromisoformat(x).isoformat()`. -/
def update_event_body (isoNorm : String → String) (event : EventResource)
    (new_summary new_start_time new_end_time : Option String) : EventResource :=
  let e1 := if truthyArg new_summary then
    { event with summary := new_summary.getD event.summary } else event
  let e2 := if truthyArg new_start_time then
    { e1 with start_dateTime := isoNorm (new_start_time.getD e1.start_dateTime) } else e1
  if truthyArg new_end_time then
    { e2 with end_dateTime := isoNorm (new_end_time.getD e2.end_dateTime) } else e2

end CalendarTools

namespace TasksTools

/-- A fetched Tasks task resource, restricted to the fields `update_task`
reads or writes plus representative untouched fields. -/
structure TaskResource where
  id : String
  title : String
  notes : Option String
  status : String
deriving Repr, DecidableEq

/-- The request body built by `update_task`: the fetched task with `title`
and `notes` overwritten only when the corresponding argument is truthy. -/
def update_task_body (task : TaskResource)
    (new_title new_notes : Option String) : TaskResource :=
  let t1 := if truthyArg new_title then
    { task with title := new_title.getD task.title } else task
  if truthyArg new_notes then
    { t1 with notes := some (new_notes.getD "") } else t1

end TasksTools

/-! ## Agent executors and delivery surfaces -/

/-- The `handle_parsing_errors` argument of `AgentExecutor`: `agent.py`
passes a fallback string, `server.py` passes `True`. -/
inductive HandleParsingErrors where
  | asBool (b : Bool)
  | withMessage (m : String)
deriving Repr, DecidableEq

/-- The `AgentExecutor` keyword configuration each delivery surface builds
(besides the agent, tools, and memory objects). -/
structure AgentExecutorConfig where
  verbose : Bool
  handle_parsing_errors : HandleParsingErrors
  max_iterations : Option Nat
deriving Repr, DecidableEq

namespace Agent

/-- The executor configuration built each turn by the interactive loop in
`agent.py`. -/
def executorConfig : AgentExecutorConfig :=
  { verbose := true
    handle_parsing_errors := .withMessage "Check your output and make sure it conforms!"
    max_iterations := some 10 }

end Agent

namespace Server

/-- The executor configuration built each turn by the webhook handler in
`server.py`; it does not pass `max_iterations`. -/
def executorConfig : AgentExecutorConfig :=
  { verbose := true
    handle_parsing_errors := .asBool true
    max_iterations := none }

end Server

/-- What the model does in one round of the executor loop: request a tool
invocation or produce the final answer. -/
inductive AgentStep where
  | toolCall
  | finish (out : String)

/-- Modelled from the spec: the agent framework (an out-of-scope external
collaborator) permits up to a bounded number of tool-invocation rounds
before the turn is aborted with a fallback message; the bound is the
configured `max_iterations` when passed, else the framework's default cap
(which the `defaultCap` parameter stands for). -/
def effectiveMaxIterations (defaultCap : Nat) (cfg : AgentExecutorConfig) : Nat :=
  cfg.max_iterations.getD defaultCap

/-- Modelled from the spec: the framework's fallback output when the
iteration bound is exhausted. -/
def iterationLimitMessage : String :=
  "Agent stopped due to iteration limit or time limit."

/-- Modelled from the spec: one executor turn.  `step` is the model's
behaviour at each round; the loop runs while rounds remain, and aborts with
the fallback output when the bound is exhausted.  Returns the turn's output
and the number of tool-invocation rounds used. -/
def runAgentTurn (step : Nat → AgentStep) : Nat → Nat → String × Nat
  | usedRounds, 0 => (iterationLimitMessage, usedRounds)
  | usedRounds, remaining + 1 =>
    match step usedRounds with
    | .finish out => (out, usedRounds)
    | .toolCall => runAgentTurn step (usedRounds + 1) remaining

namespace Server

/-- An inbound Twilio request: form fields `Body` (message text) and `From`
(sender identity). -/
structure TwilioRequest where
  Body : String
  From : String

/-- Per-sender conversation memory (the shelve-persisted
`ConversationBufferMemory`), modelled as its message list. -/
abbrev Memory := List String

/-- The shelve database keyed by sender identity. -/
abbrev MemoryDb := List (String × Memory)

/-- `get_user_memory`: the sender's stored memory, or a fresh empty one. -/
def get_user_memory (db : MemoryDb) (session_id : String) : Memory :=
  match db.find? (fun kv => kv.1 = session_id) with
  | some kv => kv.2
  | none => []

/-- `save_user_memory`: persist the sender's memory back into the shelve
database. -/
def save_user_memory (db : MemoryDb) (session_id : String) (memory : Memory) :
    MemoryDb :=
  match db with
  | [] => [(session_id, memory)]
  | kv :: rest =>
    if kv.1 = session_id then (session_id, memory) :: rest
    else kv :: save_user_memory rest session_id memory

/-- The fixed apology substituted when the orchestrator turn raises. -/
def apologyMessage : String :=
  "Sorry, I encountered an error. Please try that again."

/-- Modelled from the spec: the channel's reply envelope —
`str(MessagingResponse())` with one `message` added (the TwiML document the
Twilio library renders). -/
def twimlEnvelope (m : String) : String :=
  "<?xml version=\"1.0\" encoding=\"UTF-8\"?><Response><Message>" ++ m ++
    "</Message></Response>"

/-- Environment of one webhook request: the shelve database and the
orchestrator turn as an oracle (`.ok reply` or `.error` when
`agent_executor.invoke` raises). -/
structure ServerWorld where
  db : MemoryDb
  orchestrate : String → Except String String

/-- `server.py`'s `webhook` handler: strip the inbound body, load the
sender's memory, run one orchestrator turn — substituting the fixed apology
when it raises — persist the memory, and return the reply framed in the
channel envelope (paired here with the database afterwards). -/
def webhook (w : ServerWorld) (req : TwilioRequest) : String × MemoryDb :=
  let incoming_msg := req.Body.trim
  let memory := get_user_memory w.db req.From
  let agent_response :=
    match w.orchestrate incoming_msg with
    | .ok out => out
    | .error _ => apologyMessage
  let db2 := save_user_memory w.db req.From memory
  (twimlEnvelope agent_response, db2)

end Server

/-! ## Shared lemmas -/

/-- Writing a token file for an alias makes a subsequent lookup of that
alias return the written record. -/
theorem Store.find_insertReplace (s : Store) (a : String) (c : Cred) :
    (s.insertReplace a c).find a = some c := by
  induction s with
  | nil => simp [Store.insertReplace, Store.find]
  | cons kv rest ih =>
    obtain ⟨k, c0⟩ := kv
    by_cases h : k = a <;> simp [Store.insertReplace, Store.find, h, ih]

/-! ## Claims -/

/-- C1: the claim states the SCOPES lists of every tool module and the
enrollment script are pairwise equal as sets.  The code violates this while
its own comments demand it: calendar_tools.py and add_account.py agree, and
gmail_tools.py agrees with tasks_tools.py, but gmail_tools/tasks_tools add
`gmail.modify` and keep_tools adds the two `keep` scopes, so the other pairs
are unequal as sets. -/
theorem c1_scope_sets_diverge :
    scopeSetEq CalendarTools.SCOPES AddAccount.SCOPES = true ∧
    scopeSetEq GmailTools.SCOPES TasksTools.SCOPES = true ∧
    scopeSetEq CalendarTools.SCOPES GmailTools.SCOPES = false ∧
    scopeSetEq CalendarTools.SCOPES KeepTools.SCOPES = false ∧
    scopeSetEq GmailTools.SCOPES KeepTools.SCOPES = false ∧
    scopeSetEq AddAccount.SCOPES GmailTools.SCOPES = false := by
  decide

/-- C2 counterexample: with no cached session and the `GKEEP_EMAIL` /
`GKEEP_MASTER_KEY` environment variables unset, the `gkeep_tools.list_notes`
adapter (a tool exposed to the agent by `server.py`) lets the `ValueError`
raised by `get_keep_instance` escape instead of returning a text result, so
not every adapter converts every error into a string. -/
theorem c2_gkeep_list_notes_lets_exception_escape :
    GKeepTools.list_notes ⟨none, none, false, false, []⟩ =
      .error (.valueError GKeepTools.missingEnvMsg) := by
  rfl

/-- C2 (amended): the alias-scoped Google-API adapters (calendar_tools,
gmail_tools, tasks_tools) catch every exception — credential failures,
remote failures, anything else — at their boundary and return a text string
for every input; the Keep adapters are the exception, since they invoke
their credential/session acquisition outside any `try` block. -/
theorem c2_google_adapters_always_return_text
    (cw : CalendarTools.CalendarWorld) (a : CalendarTools.SearchEventsArgs)
    (gw : GmailTools.GmailWorld) (gacc gquery : String) (gmax : Nat)
    (tw : TasksTools.TasksWorld) (tacc : String) :
    (∃ s, (CalendarTools.search_calendar_events cw a).result = .ok s) ∧
    (∃ s, (GmailTools.search_gmail gw gacc gquery gmax).result = .ok s) ∧
    (∃ s, (TasksTools.list_task_lists tw tacc).result = .ok s) := by
  refine ⟨?_, ?_, ?_⟩
  · simp only [CalendarTools.search_calendar_events]
    cases (CalendarTools.get_credentials cw.auth a.account_alias).result with
    | error e => cases e <;> exact ⟨_, rfl⟩
    | ok c =>
      cases cw.remote with
      | error e => exact ⟨_, rfl⟩
      | ok evs => by_cases he : evs.isEmpty = true <;> simp only [he, if_true, if_false] <;> exact ⟨_, rfl⟩
  · simp only [GmailTools.search_gmail]
    cases (GmailTools.get_credentials gw.auth gacc).result with
    | error e => cases e <;> exact ⟨_, rfl⟩
    | ok c =>
      cases gw.remote with
      | error e => exact ⟨_, rfl⟩
      | ok msgs => by_cases he : msgs.isEmpty = true <;> simp only [he, if_true, if_false] <;> exact ⟨_, rfl⟩
  · simp only [TasksTools.list_task_lists]
    cases (TasksTools.get_credentials tw.auth tacc).result with
    | error e => cases e <;> exact ⟨_, rfl⟩
    | ok c =>
      cases tw.remote with
      | error e => exact ⟨_, rfl⟩
      | ok items => by_cases he : items.isEmpty = true <;> simp only [he, if_true, if_false] <;> exact ⟨_, rfl⟩

/-- C3: for every alias with no persisted credential record, the calendar
resolver fails with `FileNotFoundError` before any remote operation, and
`search_calendar_events` returns a text response containing
"Credentials file not found" while issuing zero remote API calls. -/
theorem c3_missing_alias_fails_before_remote
    (w : CalendarTools.CalendarWorld) (a : CalendarTools.SearchEventsArgs)
    (h : w.auth.store.find a.account_alias = none) :
    CalendarTools.get_credentials w.auth a.account_alias =
      ⟨.error (.fileNotFound (CalendarTools.notFoundMsg a.account_alias)),
        w.auth.store, 0⟩ ∧
    (CalendarTools.search_calendar_events w a).result =
      .ok (CalendarTools.notFoundMsg a.account_alias) ∧
    (CalendarTools.search_calendar_events w a).remoteCalls = 0 ∧
    ContainsSubstr (CalendarTools.notFoundMsg a.account_alias)
      "Credentials file not found" := by
  refine ⟨?_, ?_, ?_, ?_⟩
  · simp [CalendarTools.get_credentials, h]
  · simp [CalendarTools.search_calendar_events, CalendarTools.get_credentials, h]
  · simp [CalendarTools.search_calendar_events, CalendarTools.get_credentials, h]
  · refine ⟨[], (" for account alias '" ++ a.account_alias ++ "' at credentials/" ++
      a.account_alias ++ ".json. Please run add_account.py.").data, ?_⟩
    simp only [CalendarTools.notFoundMsg, str_data_append, List.append_assoc,
      List.nil_append]
    rfl

/-- C3 witness world: empty credential directory. -/
def c3World : CalendarTools.CalendarWorld :=
  ⟨⟨[], 0, .error "authorization server unreachable"⟩, .ok []⟩

/-- C3 witness arguments: the alias `"work"` of the spec's scenario. -/
def c3Args : CalendarTools.SearchEventsArgs :=
  ⟨"work", "2026-01-01 09:00:00", "2026-01-02 09:00:00", none, 10⟩

/-- C3 witness: the scenario at the concrete alias `"work"` with an empty
credential directory. -/
theorem c3_missing_alias_fails_before_remote_witness :
    c3World.auth.store.find c3Args.account_alias = none ∧
    ((CalendarTools.search_calendar_events c3World c3Args).remoteCalls = 0 ∧
      ContainsSubstr (CalendarTools.notFoundMsg c3Args.account_alias)
        "Credentials file not found") :=
  ⟨rfl,
    (c3_missing_alias_fails_before_remote c3World c3Args rfl).2.2.1,
    (c3_missing_alias_fails_before_remote c3World c3Args rfl).2.2.2⟩

/-- C4: for every alias whose stored credential record is valid, both the
calendar and tasks resolvers return that record unchanged, perform no
refresh, and leave the whole credential directory (this alias's file and
every other alias's) exactly as it was. -/
theorem c4_valid_cred_returned_unchanged_no_write
    (w : AuthWorld) (account_alias : String) (c : Cred)
    (hfind : w.store.find account_alias = some c)
    (hvalid : c.valid w.now = true) :
    CalendarTools.get_credentials w account_alias = ⟨.ok c, w.store, 0⟩ ∧
    TasksTools.get_credentials w account_alias = ⟨.ok c, w.store, 0⟩ := by
  have hcal : CalendarTools.get_credentials w account_alias = ⟨.ok c, w.store, 0⟩ := by
    simp [CalendarTools.get_credentials, hfind, hvalid]
  exact ⟨hcal, hcal⟩

/-- C4 witness credential: unexpired token. -/
def c4Cred : Cred :=
  { token := some "ya29.valid", refresh_token := some "1//refresh",
    expiry := 100, scopes := CalendarTools.SCOPES }

/-- C4 witness world: one alias `"personal"` with a valid record, observed
at time 5. -/
def c4World : AuthWorld := ⟨[("personal", c4Cred)], 5, .error "not consulted"⟩

/-- C4 witness: the valid-credential path at the concrete alias
`"personal"`. -/
theorem c4_valid_cred_returned_unchanged_no_write_witness :
    c4World.store.find "personal" = some c4Cred ∧
    c4Cred.valid c4World.now = true ∧
    CalendarTools.get_credentials c4World "personal" = ⟨.ok c4Cred, c4World.store, 0⟩ :=
  ⟨rfl, by decide,
    (c4_valid_cred_returned_unchanged_no_write c4World "personal" c4Cred rfl (by decide)).1⟩

/-- C5: for every alias whose stored record is expired but carries a refresh
token, and whose refresh exchange the authorization server answers with a
fresh token of positive lifetime, both the calendar and the gmail resolvers
perform exactly one refresh exchange, persist the refreshed record under the
same alias, return it, and the persisted record's expiry is strictly later
than the expiry before the call. -/
theorem c5_expired_refreshable_refreshes_once_and_persists
    (w : AuthWorld) (gw : GmailTools.GmailAuthWorld) (account_alias : String)
    (c c' : Cred) (newToken newToken' : String) (expiresIn expiresIn' : Nat)
    (hfind : w.store.find account_alias = some c)
    (hexp : c.expired w.now = true)
    (hrt : c.refresh_token.isSome = true)
    (hresp : w.refreshResponse = .ok (newToken, expiresIn))
    (hpos : 0 < expiresIn)
    (hfind' : gw.store.find account_alias = some c')
    (hexp' : c'.expired gw.now = true)
    (hrt' : c'.refresh_token.isSome = true)
    (hresp' : gw.refreshResponse = .ok (newToken', expiresIn'))
    (hpos' : 0 < expiresIn') :
    (∃ c2 : Cred,
      CalendarTools.get_credentials w account_alias =
        ⟨.ok c2, w.store.insertReplace account_alias c2, 1⟩ ∧
      (CalendarTools.get_credentials w account_alias).store.find account_alias = some c2 ∧
      c.expiry < c2.expiry ∧ c2.refresh_token = c.refresh_token) ∧
    (∃ c2 : Cred,
      GmailTools.get_credentials gw account_alias =
        ⟨.ok c2, gw.store.insertReplace account_alias c2, 1⟩ ∧
      (GmailTools.get_credentials gw account_alias).store.find account_alias = some c2 ∧
      c'.expiry < c2.expiry ∧ c2.refresh_token = c'.refresh_token) := by
  have hle : c.expiry ≤ w.now := of_decide_eq_true hexp
  have hle' : c'.expiry ≤ gw.now := of_decide_eq_true hexp'
  have hval : c.valid w.now = false := by
    simp [Cred.valid, Cred.expired, hle]
  have hval' : c'.valid gw.now = false := by
    simp [Cred.valid, Cred.expired, hle']
  constructor
  · refine ⟨{ c with token := some newToken, expiry := w.now + expiresIn }, ?_, ?_, ?_, rfl⟩
    · simp [CalendarTools.get_credentials, hfind, hval, hexp, hrt, hresp]
    · simp [CalendarTools.get_credentials, hfind, hval, hexp, hrt, hresp,
        Store.find_insertReplace]
    · show c.expiry < w.now + expiresIn
      omega
  · refine ⟨{ c' with token := some newToken', expiry := gw.now + expiresIn' }, ?_, ?_, ?_, rfl⟩
    · simp [GmailTools.get_credentials, hfind', hval', hexp', hrt', hresp']
    · simp [GmailTools.get_credentials, hfind', hval', hexp', hrt', hresp',
        Store.find_insertReplace]
    · show c'.expiry < gw.now + expiresIn'
      omega

/-- C5 witness credential: expired at time 50, refreshable. -/
def c5Cred : Cred :=
  { token := some "ya29.stale", refresh_token := some "1//refresh",
    expiry := 40, scopes := CalendarTools.SCOPES }

/-- C5 witness world: alias `"personal"` expired-but-refreshable; the
authorization server grants a one-hour token. -/
def c5World : AuthWorld := ⟨[("personal", c5Cred)], 50, .ok ("ya29.fresh", 3600)⟩

/-- C5 witness gmail world: same store, local (not Render) layout. -/
def c5GmailWorld : GmailTools.GmailAuthWorld :=
  ⟨[("personal", c5Cred)], 50, .ok ("ya29.fresh", 3600), false, true⟩

/-- C5 witness: the refresh path at the concrete alias `"personal"`. -/
theorem c5_expired_refreshable_refreshes_once_and_persists_witness :
    c5World.store.find "personal" = some c5Cred ∧
    c5Cred.expired c5World.now = true ∧
    c5Cred.refresh_token.isSome = true ∧
    (∃ c2 : Cred,
      CalendarTools.get_credentials c5World "personal" =
        ⟨.ok c2, c5World.store.insertReplace "personal" c2, 1⟩ ∧
      (CalendarTools.get_credentials c5World "personal").store.find "personal" = some c2 ∧
      c5Cred.expiry < c2.expiry ∧ c2.refresh_token = c5Cred.refresh_token) :=
  ⟨rfl, by decide, by decide,
    (c5_expired_refreshable_refreshes_once_and_persists c5World c5GmailWorld
      "personal" c5Cred c5Cred "ya29.fresh" "ya29.fresh" 3600 3600
      rfl (by decide) (by decide) rfl (by decide)
      rfl (by decide) (by decide) rfl (by decide)).1⟩

/-- C6: for every alias whose stored record is expired and has no refresh
token, both resolvers fail with a `ConnectionError` and perform no write
(the credential directory and refresh count are untouched); the gmail
variant's surfaced message carries the re-enrollment instruction (the
calendar variant's blanket re-raise drops the inner text). -/
theorem c6_expired_unrefreshable_fails_invalid_no_write
    (w : AuthWorld) (gw : GmailTools.GmailAuthWorld) (account_alias : String)
    (c c' : Cred)
    (hfind : w.store.find account_alias = some c)
    (hexp : c.expired w.now = true) (hrt : c.refresh_token = none)
    (hfind' : gw.store.find account_alias = some c')
    (hexp' : c'.expired gw.now = true) (hrt' : c'.refresh_token = none) :
    CalendarTools.get_credentials w account_alias =
      ⟨.error (.connectionError (CalendarTools.wrapMsg account_alias)), w.store, 0⟩ ∧
    GmailTools.get_credentials gw account_alias =
      ⟨.error (.connectionError
        (GmailTools.wrapMsg account_alias (GmailTools.invalidMsg account_alias))),
        gw.store, 0⟩ ∧
    ContainsSubstr
      (GmailTools.wrapMsg account_alias (GmailTools.invalidMsg account_alias))
      "re-run add_account.py" := by
  have hle : c.expiry ≤ w.now := of_decide_eq_true hexp
  have hle' : c'.expiry ≤ gw.now := of_decide_eq_true hexp'
  have hval : c.valid w.now = false := by simp [Cred.valid, Cred.expired, hle]
  have hval' : c'.valid gw.now = false := by simp [Cred.valid, Cred.expired, hle']
  refine ⟨?_, ?_, ?_⟩
  · simp [CalendarTools.get_credentials, hfind, hval, hrt]
  · simp [GmailTools.get_credentials, hfind', hval', hrt']
  · refine ⟨("Could not load or refresh credentials for '" ++ account_alias ++
      "'. Details: Credentials for '" ++ account_alias ++
      "' are invalid/expired and cannot be refreshed. Please ").data,
      (" for this alias locally and re-upload the token.").data, ?_⟩
    simp only [GmailTools.wrapMsg, GmailTools.invalidMsg, str_data_append,
      List.append_assoc]
    rfl

/-- C6 witness credential: expired, no refresh token. -/
def c6Cred : Cred :=
  { token := some "ya29.stale", refresh_token := none,
    expiry := 40, scopes := CalendarTools.SCOPES }

/-- C6 witness world: alias `"personal"` expired with no refresh token. -/
def c6World : AuthWorld := ⟨[("personal", c6Cred)], 50, .error "not consulted"⟩

/-- C6 witness gmail world: same store, local layout. -/
def c6GmailWorld : GmailTools.GmailAuthWorld :=
  ⟨[("personal", c6Cred)], 50, .error "not consulted", false, true⟩

/-- C6 witness: the unrefreshable path at the concrete alias `"personal"`. -/
theorem c6_expired_unrefreshable_fails_invalid_no_write_witness :
    c6World.store.find "personal" = some c6Cred ∧
    c6Cred.expired c6World.now = true ∧
    c6Cred.refresh_token = none ∧
    CalendarTools.get_credentials c6World "personal" =
      ⟨.error (.connectionError (CalendarTools.wrapMsg "personal")), c6World.store, 0⟩ :=
  ⟨rfl, by decide, rfl,
    (c6_expired_unrefreshable_fails_invalid_no_write c6World c6GmailWorld
      "personal" c6Cred c6Cred rfl (by decide) rfl rfl (by decide) rfl).1⟩

/-- C7: every per-entity line rendered by the listing tools — calendar event
search, Gmail search, task-list listing, task listing (tasks and subtasks),
and note listing (both Keep integrations) — contains that entity's unique
remote identifier in the parseable form `ID: <value>`. -/
theorem c7_listing_lines_contain_id
    (summary startStr id sender subject snippet title statusBox name : String) :
    ContainsSubstr (CalendarTools.eventLine summary startStr id) ("ID: " ++ id) ∧
    ContainsSubstr (GmailTools.gmailEntry sender subject snippet id) ("ID: " ++ id) ∧
    ContainsSubstr (TasksTools.taskListLine title id) ("ID: " ++ id) ∧
    ContainsSubstr (TasksTools.taskLine statusBox title id) ("ID: " ++ id) ∧
    ContainsSubstr (TasksTools.subtaskLine statusBox title id) ("ID: " ++ id) ∧
    ContainsSubstr (KeepTools.noteLine title name) ("ID: " ++ name) ∧
    ContainsSubstr (GKeepTools.noteLine title id) ("ID: " ++ id) := by
  refine ⟨?_, ?_, ?_, ?_, ?_, ?_, ?_⟩
  · refine ⟨("- Summary: " ++ summary ++ " | Starts: " ++ startStr ++ " | ").data, [], ?_⟩
    simp only [CalendarTools.eventLine, str_data_append, List.append_assoc,
      List.append_nil]
    rfl
  · refine ⟨("- From: " ++ sender ++ "\n  Subject: " ++ subject ++
      "\n  Snippet: " ++ snippet ++ "\n  ").data, ("\n---" : String).data, ?_⟩
    simp only [GmailTools.gmailEntry, str_data_append, List.append_assoc]
    rfl
  · refine ⟨("- Title: " ++ title ++ " (").data, (")" : String).data, ?_⟩
    simp only [TasksTools.taskListLine, str_data_append, List.append_assoc]
    rfl
  · refine ⟨("- " ++ statusBox ++ " " ++ title ++ " (").data, (")" : String).data, ?_⟩
    simp only [TasksTools.taskLine, str_data_append, List.append_assoc]
    rfl
  · refine ⟨("  - " ++ statusBox ++ " " ++ title ++ " (").data, (")" : String).data, ?_⟩
    simp only [TasksTools.subtaskLine, str_data_append, List.append_assoc]
    rfl
  · refine ⟨("- Title: " ++ title ++ ", ").data, [], ?_⟩
    simp only [KeepTools.noteLine, str_data_append, List.append_assoc,
      List.append_nil]
    rfl
  · refine ⟨("- Title: " ++ (if title.isEmpty then "Untitled Note" else title)
      ++ " (").data, (")" : String).data, ?_⟩
    simp only [GKeepTools.noteLine, str_data_append, List.append_assoc]
    rfl

/-- An executor turn never uses more tool-invocation rounds than its fuel. -/
theorem runAgentTurn_rounds_le (step : Nat → AgentStep) :
    ∀ (fuel usedRounds : Nat),
      (runAgentTurn step usedRounds fuel).2 ≤ usedRounds + fuel := by
  intro fuel
  induction fuel with
  | zero => intro u; simp [runAgentTurn]
  | succ n ih =>
    intro u
    cases hstep : step u with
    | finish out =>
      simp only [runAgentTurn, hstep]
      omega
    | toolCall =>
      simp only [runAgentTurn, hstep]
      have := ih (u + 1)
      omega

/-- When the model keeps requesting tools, the turn ends with the
iteration-limit fallback output. -/
theorem runAgentTurn_exhausted (step : Nat → AgentStep)
    (h : ∀ i, step i = AgentStep.toolCall) :
    ∀ (fuel usedRounds : Nat),
      (runAgentTurn step usedRounds fuel).1 = iterationLimitMessage := by
  intro fuel
  induction fuel with
  | zero => intro u; simp [runAgentTurn]
  | succ n ih => intro u; simp [runAgentTurn, h u, ih]

/-- C8: each delivery surface's agent turn runs under a finite bound on
tool-invocation rounds, after which the turn is aborted with the framework's
fallback output instead of looping: the interactive loop (`agent.py`) passes
`max_iterations=10`, so its turns use at most 10 rounds; the webhook
executor (`server.py`) passes no `max_iterations`, so the framework's
default cap (`defaultCap`) bounds it.  With a model that never stops
requesting tools, both turns end in the fallback output. -/
theorem c8_agent_turns_have_bounded_tool_rounds (defaultCap : Nat)
    (step : Nat → AgentStep) (hloop : ∀ i, step i = AgentStep.toolCall) :
    Agent.executorConfig.max_iterations = some 10 ∧
    effectiveMaxIterations defaultCap Agent.executorConfig = 10 ∧
    effectiveMaxIterations defaultCap Server.executorConfig = defaultCap ∧
    (∀ st : Nat → AgentStep,
      (runAgentTurn st 0 (effectiveMaxIterations defaultCap Agent.executorConfig)).2 ≤ 10) ∧
    (∀ st : Nat → AgentStep,
      (runAgentTurn st 0 (effectiveMaxIterations defaultCap Server.executorConfig)).2 ≤ defaultCap) ∧
    (runAgentTurn step 0 (effectiveMaxIterations defaultCap Agent.executorConfig)).1 =
      iterationLimitMessage ∧
    (runAgentTurn step 0 (effectiveMaxIterations defaultCap Server.executorConfig)).1 =
      iterationLimitMessage := by
  refine ⟨rfl, rfl, rfl, ?_, ?_, ?_, ?_⟩
  · intro st
    have := runAgentTurn_rounds_le st (effectiveMaxIterations defaultCap Agent.executorConfig) 0
    simpa [effectiveMaxIterations, Agent.executorConfig] using this
  · intro st
    have := runAgentTurn_rounds_le st (effectiveMaxIterations defaultCap Server.executorConfig) 0
    simpa [effectiveMaxIterations, Server.executorConfig] using this
  · exact runAgentTurn_exhausted step hloop _ 0
  · exact runAgentTurn_exhausted step hloop _ 0

/-- C8 witness: a model that always requests another tool call, with a
framework default cap of 15. -/
theorem c8_agent_turns_have_bounded_tool_rounds_witness :
    (∀ i : Nat, (fun _ : Nat => AgentStep.toolCall) i = AgentStep.toolCall) ∧
    (runAgentTurn (fun _ => AgentStep.toolCall) 0
      (effectiveMaxIterations 15 Agent.executorConfig)).1 = iterationLimitMessage :=
  ⟨fun _ => rfl,
    (c8_agent_turns_have_bounded_tool_rounds 15 (fun _ => AgentStep.toolCall)
      (fun _ => rfl)).2.2.2.2.2.1⟩

/-- C9: for every inbound webhook request whose orchestrator turn raises,
the handler substitutes the fixed generic apology as the reply and still
returns a well-formed channel response envelope. -/
theorem c9_webhook_substitutes_apology_in_envelope
    (w : Server.ServerWorld) (req : Server.TwilioRequest) (err : String)
    (hraise : w.orchestrate req.Body.trim = .error err) :
    (Server.webhook w req).1 = Server.twimlEnvelope Server.apologyMessage ∧
    (∃ m, (Server.webhook w req).1 = Server.twimlEnvelope m) := by
  have h : (Server.webhook w req).1 = Server.twimlEnvelope Server.apologyMessage := by
    simp [Server.webhook, hraise]
  exact ⟨h, ⟨Server.apologyMessage, h⟩⟩

/-- C9 witness world: an orchestrator that raises on every input. -/
def c9World : Server.ServerWorld :=
  ⟨[("whatsapp:+10000000000", ["hi"])], fun _ => .error "GoogleGenerativeAIError"⟩

/-- C9 witness request. -/
def c9Request : Server.TwilioRequest :=
  ⟨" what is on my calendar ", "whatsapp:+10000000000"⟩

/-- C9 witness: the failing-turn path at a concrete request. -/
theorem c9_webhook_substitutes_apology_in_envelope_witness :
    c9World.orchestrate c9Request.Body.trim = .error "GoogleGenerativeAIError" ∧
    (Server.webhook c9World c9Request).1 =
      Server.twimlEnvelope Server.apologyMessage :=
  ⟨rfl,
    (c9_webhook_substitutes_apology_in_envelope c9World c9Request
      "GoogleGenerativeAIError" rfl).1⟩

/-- C10: the update request bodies of `update_event` and `update_task` are
the fetched entity with only the explicitly supplied fields replaced: an
omitted (`None`) optional parameter leaves the corresponding field
unchanged, and fields the tool never targets (event id, location,
description; task id, status) are carried through verbatim for every
argument combination. -/
theorem c10_update_body_preserves_omitted_fields
    (isoNorm : String → String) (event : CalendarTools.EventResource)
    (task : TasksTools.TaskResource)
    (new_summary new_start_time new_end_time new_title new_notes : Option String) :
    CalendarTools.update_event_body isoNorm event none none none = event ∧
    TasksTools.update_task_body task none none = task ∧
    (new_summary = none →
      (CalendarTools.update_event_body isoNorm event new_summary new_start_time
        new_end_time).summary = event.summary) ∧
    (new_start_time = none →
      (CalendarTools.update_event_body isoNorm event new_summary new_start_time
        new_end_time).start_dateTime = event.start_dateTime) ∧
    (new_end_time = none →
      (CalendarTools.update_event_body isoNorm event new_summary new_start_time
        new_end_time).end_dateTime = event.end_dateTime) ∧
    (CalendarTools.update_event_body isoNorm event new_summary new_start_time
      new_end_time).id = event.id ∧
    (CalendarTools.update_event_body isoNorm event new_summary new_start_time
      new_end_time).location = event.location ∧
    (CalendarTools.update_event_body isoNorm event new_summary new_start_time
      new_end_time).description = event.description ∧
    (new_title = none →
      (TasksTools.update_task_body task new_title new_notes).title = task.title) ∧
    (new_notes = none →
      (TasksTools.update_task_body task new_title new_notes).notes = task.notes) ∧
    (TasksTools.update_task_body task new_title new_notes).id = task.id ∧
    (TasksTools.update_task_body task new_title new_notes).status = task.status := by
  unfold CalendarTools.update_event_body TasksTools.update_task_body
  refine ⟨by simp [truthyArg], by simp [truthyArg], ?_, ?_, ?_, ?_, ?_, ?_, ?_, ?_, ?_, ?_⟩ <;>
    first
      | (intro h; subst h; simp only [truthyArg, Bool.false_eq_true, if_false];
          split <;> (try split) <;> rfl)
      | (split <;> (try split) <;> (try split) <;> rfl)

/-- C10 witness event resource. -/
def c10Event : CalendarTools.EventResource :=
  { id := "evt42", summary := "Standup", start_dateTime := "2026-01-05T09:00:00",
    end_dateTime := "2026-01-05T09:15:00", location := some "Office",
    description := none }

/-- C10 witness task resource. -/
def c10Task : TasksTools.TaskResource :=
  { id := "task7", title := "Buy milk", notes := some "2 litres",
    status := "needsAction" }

/-- C10 witness: all optional parameters omitted at concrete resources. -/
theorem c10_update_body_preserves_omitted_fields_witness :
    (none : Option String) = none ∧
    CalendarTools.update_event_body (fun x => x) c10Event none none none = c10Event ∧
    (CalendarTools.update_event_body (fun x => x) c10Event none none none).summary =
      c10Event.summary ∧
    (TasksTools.update_task_body c10Task none none).notes = c10Task.notes :=
  ⟨rfl,
    (c10_update_body_preserves_omitted_fields (fun x => x) c10Event c10Task
      none none none none none).1,
    (c10_update_body_preserves_omitted_fields (fun x => x) c10Event c10Task
      none none none none none).2.2.1 rfl,
    (c10_update_body_preserves_omitted_fields (fun x => x) c10Event c10Task
      none none none none none).2.2.2.2.2.2.2.2.2.1 rfl⟩
